import Mathlib

/-!
Verification of the Meteostat dashboard (`Inicio.py`) against its
natural-language specification.  The Python module is shallowly embedded:
pure helpers become Lean functions, the module-level script becomes a
function from an environment of external-service responses to an outcome
together with the trace of external invocations it performs.
-/

set_option maxHeartbeats 1000000

namespace MeteoStats

/-- Calendar date, mirroring Python `datetime.date`. -/
structure PyDate where
  year : Nat
  month : Nat
  day : Nat
deriving DecidableEq, Repr

/-- Clock time, mirroring Python `datetime.time` (seconds default to 0). -/
structure PyTime where
  hour : Nat
  minute : Nat
  second : Nat
deriving DecidableEq, Repr

/-- Timestamp, mirroring Python `datetime.datetime`. -/
structure PyDateTime where
  date : PyDate
  hour : Nat
  minute : Nat
  second : Nat
deriving DecidableEq, Repr

/-- `datetime.combine(d, t)` from the Python standard library. -/
def datetimeCombine (d : PyDate) (t : PyTime) : PyDateTime :=
  ⟨d, t.hour, t.minute, t.second⟩

/-- Strict comparison of dates, mirroring Python `date.__lt__`
(lexicographic on year, month, day). -/
def dateLt (a b : PyDate) : Bool :=
  if a.year < b.year then true
  else if b.year < a.year then false
  else if a.month < b.month then true
  else if b.month < a.month then false
  else decide (a.day < b.day)

/-- Zero padding used by `str(date)` (`%04d` / `%02d`). -/
def padZero (w : Nat) (n : Nat) : String :=
  let s := toString n
  String.mk (List.replicate (w - s.length) '0') ++ s

/-- `str(d)` for a Python date: ISO `YYYY-MM-DD`. -/
def PyDate.iso (d : PyDate) : String :=
  padZero 4 d.year ++ "-" ++ padZero 2 d.month ++ "-" ++ padZero 2 d.day

/-- A geocoding candidate, as returned in the `results` array of the
Open-Meteo geocoding response (the fields `Inicio.py` reads). -/
structure Place where
  name : String
  admin1 : String
  admin2 : String
  country : String
  latitude : ℚ
  longitude : ℚ
  elevation : Option ℚ
deriving DecidableEq, Repr

/-- A row of the `nearby_stations` dataframe (the fields `Inicio.py` reads:
`id`, `name`, `distance`; `distance` appears in labels through `int(...)`). -/
structure Station where
  id : String
  name : Option String
  distance : Int
deriving DecidableEq, Repr

/-- An observation column of the fetched dataframe, together with whether
`pd.api.types.is_numeric_dtype` holds for it. -/
structure Column where
  name : String
  numeric : Bool
deriving DecidableEq, Repr

/-- A fetched observation table: the time index is kept separately, as in a
pandas `DataFrame` indexed by `time`.  Cell contents are kept in their
rendered (textual) form, which is what serialization writes out. -/
structure Table where
  cols : List Column
  rows : List (String × List String)
deriving DecidableEq, Repr

/-- `df.empty` for the embedded table: any axis of length zero. -/
def Table.isEmptyDf (t : Table) : Bool :=
  t.rows.isEmpty || t.cols.isEmpty

/- ### Character-list utilities for the delimited-text format -/

/-- Split a character list at every occurrence of `c` (the separator is
dropped; `n` separators yield `n+1` groups). -/
def splitOnChar (c : Char) : List Char → List (List Char)
  | [] => [[]]
  | ch :: rest =>
    match splitOnChar c rest with
    | [] => [[]]
    | g :: gs => if ch = c then [] :: g :: gs else (ch :: g) :: gs

/-- Join character lists with a single separator character between groups. -/
def joinWith (c : Char) : List (List Char) → List Char
  | [] => []
  | [x] => x
  | x :: y :: rest => x ++ c :: joinWith c (y :: rest)

/-- Python `str.strip()` on a character list: drop whitespace from both
ends. -/
def stripChars (l : List Char) : List Char :=
  ((l.dropWhile Char.isWhitespace).reverse.dropWhile Char.isWhitespace).reverse

/-- Python `s.strip()`. -/
def pyStrip (s : String) : String :=
  String.mk (stripChars s.data)

/-- Python `s.split(sep)[0]` for a one-character separator: everything
before the first occurrence of `c`. -/
def beforeFirst (c : Char) (s : String) : String :=
  String.mk (s.data.takeWhile (fun ch => ch ≠ c))

/-- Python `s.replace(" ", "_")`: every space becomes an underscore. -/
def pyReplaceSpace (s : String) : String :=
  String.mk (s.data.map (fun ch => if ch = ' ' then '_' else ch))

/- ### CSV serialization (`df_to_csv_bytes`) and re-parsing -/

/-- Header cells written by `df_reset.to_csv`: the time index becomes the
first column, named `time`, followed by every observation column. -/
def headerCells (t : Table) : List (List Char) :=
  "time".data :: t.cols.map (fun c => c.name.data)

/-- Data cells of one row: the time value first, then the field cells. -/
def rowCells (r : String × List String) : List (List Char) :=
  r.1.data :: r.2.map String.data

/-- All records (header first) written by `to_csv`. -/
def csvRecords (t : Table) : List (List (List Char)) :=
  headerCells t :: t.rows.map rowCells

/-- The delimited text produced by `df_reset.to_csv(buf, index=False)`:
comma-separated cells, every record terminated by a newline. -/
def csvString (t : Table) : String :=
  String.mk (((csvRecords t).map (fun cells => joinWith ',' cells ++ ['\n'])).flatten)

/-- `df_to_csv_bytes` from `Inicio.py`: the delimited text, UTF-8 encoded. -/
def df_to_csv_bytes (t : Table) : ByteArray :=
  (csvString t).toUTF8

/-- Modelled from the spec: re-parsing the exported delimited text (the
round-trip property of section 8 of the spec; the repository delegates
parsing to an external library, so the parser is modelled here): split the
text into lines, skip blank lines, and split each line at commas. -/
def parseDelimited (s : String) : List (List String) :=
  ((splitOnChar '\n' s.data).filter (fun l => !l.isEmpty)).map
    (fun line => (splitOnChar ',' line).map String.mk)

/-- A string usable as a bare CSV cell: no separator, no record
terminator. -/
def PlainCell (s : String) : Prop :=
  ',' ∉ s.data ∧ '\n' ∉ s.data

instance (s : String) : Decidable (PlainCell s) := by
  unfold PlainCell; infer_instance

/- ### Cache layer (`@st.cache_data(ttl=...)`) -/

/-- One stored memoization entry: the computed value and the second at
which it was stored. -/
structure CacheEntry (β : Type) where
  value : β
  storedAt : Nat
deriving Repr

/-- The memoization table: full argument tuple to optional entry. -/
def CacheTable (α β : Type) : Type :=
  α → Option (CacheEntry β)

/-- Modelled from the spec: the time-bounded memoization `st.cache_data`
applies to a decorated function (the decorator's implementation is
external to the repository; the repository only selects the `ttl`
arguments).  Per spec section 4.4: a hit within `ttl` of the stored entry
returns the stored value without invoking the underlying operation; a
miss (absent or expired entry) invokes it and stores the result keyed by
the full argument tuple, overwriting on expiry.  The returned `Bool`
records whether the underlying (external) operation was invoked. -/
def cachedCall {α β : Type} [DecidableEq α] (ttl : Nat) (f : α → β)
    (now : Nat) (tbl : CacheTable α β) (a : α) : β × CacheTable α β × Bool :=
  match tbl a with
  | some e =>
    if now < e.storedAt + ttl then (e.value, tbl, false)
    else (f a, fun x => if x = a then some ⟨f a, now⟩ else tbl x, true)
  | none => (f a, fun x => if x = a then some ⟨f a, now⟩ else tbl x, true)

/-- `geocode_city_country` as decorated in `Inicio.py` line 17:
`ttl=60 * 60`, keyed by `(city, country, max_results, language)`. -/
def geocode_city_country_memo :
    ((String × String × Nat × String) → List Place) → Nat →
    CacheTable (String × String × Nat × String) (List Place) →
    (String × String × Nat × String) →
    List Place × CacheTable (String × String × Nat × String) (List Place) × Bool :=
  cachedCall (60 * 60)

/-- `nearby_stations` as decorated in `Inicio.py` line 39: `ttl=60 * 60`,
keyed by `(lat, lon, elev)`. -/
def nearby_stations_memo :
    ((ℚ × ℚ × ℚ) → List Station) → Nat → CacheTable (ℚ × ℚ × ℚ) (List Station) →
    (ℚ × ℚ × ℚ) → List Station × CacheTable (ℚ × ℚ × ℚ) (List Station) × Bool :=
  cachedCall (60 * 60)

/-- `fetch_daily` as decorated in `Inicio.py` line 48: `ttl=60 * 30`,
keyed by `(station_id, start_d, end_d)`. -/
def fetch_daily_memo :
    ((String × PyDate × PyDate) → Table) → Nat →
    CacheTable (String × PyDate × PyDate) Table →
    (String × PyDate × PyDate) →
    Table × CacheTable (String × PyDate × PyDate) Table × Bool :=
  cachedCall (60 * 30)

/-- `fetch_hourly` as decorated in `Inicio.py` line 53: `ttl=60 * 30`,
keyed by `(station_id, start_d, end_d)`. -/
def fetch_hourly_memo :
    ((String × PyDate × PyDate) → Table) → Nat →
    CacheTable (String × PyDate × PyDate) Table →
    (String × PyDate × PyDate) →
    Table × CacheTable (String × PyDate × PyDate) Table × Bool :=
  cachedCall (60 * 30)

/-- The memoization contract the claim attributes to each decorated fetch
operation: after any call, an entry for the key exists holding the
returned value; a call on an absent key invokes the operation and stores
its result at the current time; other keys are untouched; a second
identical call within the expiry window returns the stored value without
invoking and leaves the table unchanged, while a second call at or past
expiry invokes anew and overwrites the entry. -/
def MemoSpec {α β : Type} [DecidableEq α] (ttl : Nat)
    (op : (α → β) → Nat → CacheTable α β → α → β × CacheTable α β × Bool) : Prop :=
  ∀ (f : α → β) (tbl : CacheTable α β) (a : α) (t1 t2 : Nat),
    (∃ e : CacheEntry β, (op f t1 tbl a).2.1 a = some e ∧ e.value = (op f t1 tbl a).1) ∧
    (tbl a = none →
      (op f t1 tbl a).1 = f a ∧ (op f t1 tbl a).2.2 = true ∧
      (op f t1 tbl a).2.1 a = some ⟨f a, t1⟩) ∧
    (∀ b : α, b ≠ a → (op f t1 tbl a).2.1 b = tbl b) ∧
    (∀ e : CacheEntry β, (op f t1 tbl a).2.1 a = some e →
      (t2 < e.storedAt + ttl →
        (op f t2 (op f t1 tbl a).2.1 a).1 = e.value ∧
        (op f t2 (op f t1 tbl a).2.1 a).2.2 = false ∧
        (op f t2 (op f t1 tbl a).2.1 a).2.1 = (op f t1 tbl a).2.1) ∧
      (e.storedAt + ttl ≤ t2 →
        (op f t2 (op f t1 tbl a).2.1 a).1 = f a ∧
        (op f t2 (op f t1 tbl a).2.1 a).2.2 = true ∧
        (op f t2 (op f t1 tbl a).2.1 a).2.1 a = some ⟨f a, t2⟩))

/- ### The module-level flow -/

/-- The `results` field of the geocoding JSON body: it can be absent, be
JSON `null`, or carry a (possibly empty) list. -/
inductive GeoField where
  | absent
  | null
  | results (ps : List Place)
deriving DecidableEq, Repr

/-- `data.get("results", []) or []` from `geocode_city_country`: an absent
field gives the `get` default `[]`; a `null` field gives `None`, which
`or` turns into `[]`; a list is kept (an empty one is falsy, and `or`
again gives `[]`, the same list). -/
def extractResults : GeoField → List Place
  | GeoField.absent => []
  | GeoField.null => []
  | GeoField.results ps => ps

/-- `float(selected_place.get("elevation") or 0.0)` from `Inicio.py`
line 120: a missing or null field (and a zero value, which is falsy)
yields `0.0`; any other value passes through. -/
def elev_or_zero (e : Option ℚ) : ℚ :=
  match e with
  | none => 0
  | some v => if v = 0 then 0 else v

/-- The label built for each geocoding candidate (`Inicio.py` line 112). -/
def placeLabel (p : Place) : String :=
  p.name ++ " — " ++ p.admin1 ++ " " ++ p.admin2 ++ " (" ++ p.country ++
    ") [lat=" ++ toString p.latitude ++ ", lon=" ++ toString p.longitude ++ "]"

/-- The label built for each station row (`Inicio.py` line 154). -/
def stationLabel (s : Station) : String :=
  s.id ++ " — " ++ (s.name.getD "(sem nome)" ++ " (distância: " ++
    toString s.distance ++ " m)")

/-- `station_label.split("—")[0].strip()` (`Inicio.py` line 158). -/
def station_id_of_label (lab : String) : String :=
  pyStrip (beforeFirst '—' lab)

/-- Granularity toggle (the radio widget of `Inicio.py` line 80;
`granularity.startswith("Diário")` distinguishes the two options). -/
inductive Granularity where
  | daily
  | hourly
deriving DecidableEq, Repr

/-- The value of the date-range widget: normally a pair, but possibly a
single date. -/
inductive PeriodInput where
  | range (d1 d2 : PyDate)
  | single (d : PyDate)
deriving DecidableEq, Repr

/-- The normalization at `Inicio.py` lines 83-86: a 2-tuple is unpacked,
anything else is used for both endpoints. -/
def normalizePeriod : PeriodInput → PyDate × PyDate
  | PeriodInput.range d1 d2 => (d1, d2)
  | PeriodInput.single d => (d, d)

/-- One invocation of an external service made by the flow. -/
inductive ExtCall where
  | geocode (city country : String) (maxResults : Nat) (language : String)
  | stationsNearby (lat lon elev : ℚ)
  | inventory (stationId : String)
  | dailyFetch (stationId : String) (start_d end_d : PyDate)
  | hourlyFetch (stationId : String) (start_dt end_dt : PyDateTime)
deriving DecidableEq, Repr

/-- Responses of the external world for one interaction: each `Except`
error stands for a raised exception (network failure, non-success HTTP
status surfaced by `raise_for_status`, or a library error). -/
structure Env where
  geocodeResp : Except Unit GeoField
  stationsResp : Except Unit (List Station)
  inventoryResp : Except Unit Unit
  dailyResp : Except Unit Table
  hourlyResp : Except Unit Table

/-- The ways the script stops before rendering (`st.stop()` sites, plus an
uncaught exception from the inventory expander). -/
inductive Halt where
  | validationError
  | geocodeError
  | noLocation
  | stationsError
  | noStation
  | inventoryError
  | fetchError
  | emptySeries
deriving DecidableEq, Repr

/-- Whether the halt is surfaced through `st.error` (an error) rather than
`st.warning` (a distinct "no results" condition). -/
def Halt.isError : Halt → Bool
  | Halt.validationError => true
  | Halt.geocodeError => true
  | Halt.noLocation => false
  | Halt.stationsError => true
  | Halt.noStation => false
  | Halt.inventoryError => true
  | Halt.fetchError => true
  | Halt.emptySeries => false

/-- Everything the rendered page shows once the pipeline completes. -/
structure Rendered where
  station_id : String
  preview : List (String × List String)
  numericCols : List String
  defaultCols : List String
  selectedCols : List String
  lineShown : Bool
  prcpBarShown : Bool
  csvBytes : ByteArray
  fileName : String

/-- Result of one interaction: a halt with a user-visible message, or the
fully rendered page. -/
inductive Outcome where
  | halted (h : Halt)
  | rendered (r : Rendered)

/-- `numeric_cols` (`Inicio.py` line 196): the columns of `df.reset_index()`
other than `time` whose dtype is numeric. -/
def numeric_cols (t : Table) : List String :=
  (t.cols.filter (fun c => c.name != "time" && c.numeric)).map (fun c => c.name)

/-- The candidate default variables (`Inicio.py` line 199). -/
def canonicalVars : List String :=
  ["temp", "tmin", "tmax", "prcp", "wspd", "pres", "rhum"]

/-- `default_cols` (`Inicio.py` line 199): the canonical variables present
among the numeric columns, in canonical order. -/
def default_cols (numeric : List String) : List String :=
  canonicalVars.filter (fun c => numeric.contains c)

/-- `fetch_hourly`'s range expansion (`Inicio.py` lines 55-56):
`datetime.combine(start_d, time(0, 0))` and
`datetime.combine(end_d, time(23, 59))`. -/
def fetch_hourly_range (start_d end_d : PyDate) : PyDateTime × PyDateTime :=
  (datetimeCombine start_d ⟨0, 0, 0⟩, datetimeCombine end_d ⟨23, 59, 0⟩)

/-- The download file name (`Inicio.py` line 217):
`f"meteostat_{country}_{city}_{station_id}_{start_d}_{end_d}.csv".replace(" ", "_")`. -/
def file_name (country city station_id : String) (start_d end_d : PyDate) : String :=
  pyReplaceSpace ("meteostat_" ++ country ++ "_" ++ city ++ "_" ++ station_id ++
    "_" ++ start_d.iso ++ "_" ++ end_d.iso ++ ".csv")

/-- The series request the flow issues (`Inicio.py` lines 176-179):
`fetch_daily(station_id, start_d, end_d)` or
`fetch_hourly(station_id, start_d, end_d)` with its full-day expansion. -/
def fcallOf (gran : Granularity) (station_id : String)
    (start_d end_d : PyDate) : ExtCall :=
  match gran with
  | Granularity.daily => ExtCall.dailyFetch station_id start_d end_d
  | Granularity.hourly =>
    ExtCall.hourlyFetch station_id
      (fetch_hourly_range start_d end_d).1
      (fetch_hourly_range start_d end_d).2

/-- The rendered page (`Inicio.py` lines 188-219): 50-row preview, numeric
columns, multiselect default, charts, CSV bytes and file name. -/
def renderPage (country city : String) (start_d end_d : PyDate)
    (station_id : String) (df : Table) (userCols : Option (List String)) : Rendered :=
  let numeric := numeric_cols df
  let defaults := default_cols numeric
  let defShown := if defaults.isEmpty then numeric.take 2 else defaults
  let selCols := userCols.getD defShown
  { station_id := station_id
    preview := df.rows.take 50
    numericCols := numeric
    defaultCols := defShown
    selectedCols := selCols
    lineShown := !selCols.isEmpty
    prcpBarShown := !selCols.isEmpty && selCols.contains "prcp"
    csvBytes := df_to_csv_bytes df
    fileName := file_name country city station_id start_d end_d }

/-- Stage 3 of the script (`Inicio.py` lines 174-219): issue the series
fetch, halt on error or empty result, otherwise render.  The trace holds
the calls this stage makes. -/
def fetchStage (env : Env) (country city : String) (start_d end_d : PyDate)
    (gran : Granularity) (station_id : String)
    (userCols : Option (List String)) : Outcome × List ExtCall :=
  let fcall := fcallOf gran station_id start_d end_d
  let seriesResp :=
    match gran with
    | Granularity.daily => env.dailyResp
    | Granularity.hourly => env.hourlyResp
  match seriesResp with
  | Except.error _ => (Outcome.halted Halt.fetchError, [fcall])
  | Except.ok df =>
    if df.isEmptyDf then (Outcome.halted Halt.emptySeries, [fcall])
    else (Outcome.rendered (renderPage country city start_d end_d station_id df userCols), [fcall])

/-- Stage 2 of the script after the station lookup returned
(`Inicio.py` lines 143-169): halt on an empty station list, otherwise take
the selectbox's station label (position 0 by default), recover its id, and
run the inventory expander before fetching. -/
def stationStage (env : Env) (country city : String) (start_d end_d : PyDate)
    (gran : Granularity) (stationIdx : Nat) (userCols : Option (List String))
    (stations : List Station) : Outcome × List ExtCall :=
  if stations.isEmpty then (Outcome.halted Halt.noStation, [])
  else
    let stLabels := stations.map stationLabel
    let station_id := station_id_of_label (stLabels.getD stationIdx "")
    let icall := ExtCall.inventory station_id
    match env.inventoryResp with
    | Except.error _ => (Outcome.halted Halt.inventoryError, [icall])
    | Except.ok _ =>
      let r := fetchStage env country city start_d end_d gran station_id userCols
      (r.1, icall :: r.2)

/-- The module-level script of `Inicio.py`, from the date normalization to
the download button, as a function of the external responses and the user
inputs.  `placeIdx` and `stationIdx` are the selectbox positions the user
ends up on (both default to 0); `userCols` is `some l` when the user edits
the multiselect, `none` when the default selection stands.  The second
component is the trace of external invocations, in order. -/
def runFlow (env : Env) (country city : String) (period : PeriodInput)
    (gran : Granularity) (placeIdx stationIdx : Nat)
    (userCols : Option (List String)) : Outcome × List ExtCall :=
  let norm := normalizePeriod period
  let start_d := norm.1
  let end_d := norm.2
  if dateLt end_d start_d then (Outcome.halted Halt.validationError, [])
  else
    let gcall := ExtCall.geocode city country 10 "pt"
    match env.geocodeResp with
    | Except.error _ => (Outcome.halted Halt.geocodeError, [gcall])
    | Except.ok gf =>
      let places := extractResults gf
      if places.isEmpty then (Outcome.halted Halt.noLocation, [gcall])
      else
        let labels := places.map placeLabel
        let selLabel := labels.getD placeIdx ""
        match places[labels.indexOf selLabel]? with
        | none => (Outcome.halted Halt.noLocation, [gcall])
        | some p =>
          let elev := elev_or_zero p.elevation
          let scall := ExtCall.stationsNearby p.latitude p.longitude elev
          match env.stationsResp with
          | Except.error _ => (Outcome.halted Halt.stationsError, [gcall, scall])
          | Except.ok stations =>
            let r := stationStage env country city start_d end_d gran stationIdx userCols stations
            (r.1, gcall :: scall :: r.2)

/-! ### Helper lemmas on the character-list utilities -/

theorem splitOnChar_ne_nil (c : Char) (l : List Char) : splitOnChar c l ≠ [] := by
  induction l with
  | nil => simp [splitOnChar]
  | cons ch rest ih =>
    simp only [splitOnChar]
    split
    · simp
    · split <;> simp

theorem splitOnChar_sep_cons (c : Char) (l : List Char) :
    splitOnChar c (c :: l) = [] :: splitOnChar c l := by
  simp only [splitOnChar]
  cases h : splitOnChar c l with
  | nil => exact absurd h (splitOnChar_ne_nil c l)
  | cons g gs => simp

theorem splitOnChar_not_mem (c : Char) (p : List Char) (h : c ∉ p) :
    splitOnChar c p = [p] := by
  induction p with
  | nil => rfl
  | cons ch rest ih =>
    have hch : ch ≠ c := by rintro rfl; exact h (List.mem_cons_self _ _)
    have hrest : c ∉ rest := fun hm => h (List.mem_cons_of_mem _ hm)
    simp only [splitOnChar, ih hrest]
    simp [hch]

theorem splitOnChar_append (c : Char) (p l : List Char) (h : c ∉ p) :
    splitOnChar c (p ++ c :: l) = p :: splitOnChar c l := by
  induction p with
  | nil => simpa using splitOnChar_sep_cons c l
  | cons ch rest ih =>
    have hch : ch ≠ c := by rintro rfl; exact h (List.mem_cons_self _ _)
    have hrest : c ∉ rest := fun hm => h (List.mem_cons_of_mem _ hm)
    simp only [List.cons_append, splitOnChar, List.append_eq]
    rw [ih hrest]
    simp [hch]

theorem not_mem_joinWith (c x : Char) (hx : x ≠ c) :
    ∀ cells : List (List Char), (∀ cell ∈ cells, x ∉ cell) →
      x ∉ joinWith c cells := by
  intro cells
  induction cells with
  | nil => intro _; simp [joinWith]
  | cons a rest ih =>
    intro h
    cases rest with
    | nil => simpa [joinWith] using h a (by simp)
    | cons b bs =>
      intro hmem
      rcases List.mem_append.1 hmem with h1 | h2
      · exact h a (by simp) h1
      · rcases List.mem_cons.1 h2 with h3 | h4
        · exact hx h3
        · exact ih (fun cell hc => h cell (List.mem_cons_of_mem _ hc)) h4

theorem joinWith_ne_nil (c : Char) (a : List Char) (rest : List (List Char))
    (ha : a ≠ []) : joinWith c (a :: rest) ≠ [] := by
  cases rest with
  | nil => simpa [joinWith] using ha
  | cons b bs => simp [joinWith]

theorem splitOnChar_joinWith (c : Char) :
    ∀ cells : List (List Char), cells ≠ [] → (∀ cell ∈ cells, c ∉ cell) →
      splitOnChar c (joinWith c cells) = cells := by
  intro cells
  induction cells with
  | nil => intro h; exact absurd rfl h
  | cons a rest ih =>
    intro _ h
    cases rest with
    | nil => simpa [joinWith] using splitOnChar_not_mem c a (h a (by simp))
    | cons b bs =>
      have step : joinWith c (a :: b :: bs) = a ++ c :: joinWith c (b :: bs) := rfl
      rw [step, splitOnChar_append c a _ (h a (by simp)),
        ih (by simp) (fun cell hc => h cell (List.mem_cons_of_mem _ hc))]

theorem splitOnChar_newline_flatten (nl : Char) :
    ∀ lines : List (List Char), (∀ l ∈ lines, nl ∉ l) →
      splitOnChar nl ((lines.map (fun l => l ++ [nl])).flatten) = lines ++ [[]] := by
  intro lines
  induction lines with
  | nil => intro _; simp [splitOnChar]
  | cons a rest ih =>
    intro h
    simp only [List.map_cons, List.flatten_cons]
    have step : (a ++ [nl]) ++ (rest.map (fun l => l ++ [nl])).flatten
        = a ++ nl :: (rest.map (fun l => l ++ [nl])).flatten := by simp
    rw [step, splitOnChar_append nl a _ (h a (by simp)),
      ih (fun l hl => h l (List.mem_cons_of_mem _ hl))]
    simp

theorem filter_append_blank (lines : List (List Char))
    (h : ∀ l ∈ lines, l ≠ []) :
    (lines ++ [([] : List Char)]).filter (fun l => !l.isEmpty) = lines := by
  induction lines with
  | nil => simp
  | cons a rest ih =>
    have ha : (!a.isEmpty) = true := by
      simpa [List.isEmpty_iff] using h a (by simp)
    simp only [List.cons_append, List.filter_cons, ha, if_true]
    rw [ih (fun l hl => h l (List.mem_cons_of_mem _ hl))]

theorem string_mk_data (s : String) : String.mk s.data = s := rfl

/-! ### The CSV round trip -/

theorem plain_csvRecords (t : Table)
    (hcols : ∀ c ∈ t.cols, PlainCell c.name)
    (hrows : ∀ r ∈ t.rows, (PlainCell r.1 ∧ r.1 ≠ "") ∧ ∀ cell ∈ r.2, PlainCell cell) :
    ∀ cells ∈ csvRecords t, ∀ cell ∈ cells, ',' ∉ cell ∧ '\n' ∉ cell := by
  intro cells hc cell hcell
  rcases List.mem_cons.1 hc with h | h
  · subst h
    rcases List.mem_cons.1 hcell with h2 | h2
    · subst h2
      exact ⟨by decide, by decide⟩
    · rcases List.mem_map.1 h2 with ⟨c, hcmem, rfl⟩
      exact hcols c hcmem
  · rcases List.mem_map.1 h with ⟨r, hrmem, rfl⟩
    rcases List.mem_cons.1 hcell with h2 | h2
    · subst h2
      exact (hrows r hrmem).1.1
    · rcases List.mem_map.1 h2 with ⟨cellS, hcs, rfl⟩
      exact (hrows r hrmem).2 cellS hcs

theorem csvRecords_ne_nil (t : Table) :
    ∀ cells ∈ csvRecords t, cells ≠ [] := by
  intro cells hc
  rcases List.mem_cons.1 hc with h | h
  · subst h; simp [headerCells]
  · rcases List.mem_map.1 h with ⟨r, hrmem, rfl⟩; simp [rowCells]

theorem csvLines_ne_nil (t : Table)
    (hrows : ∀ r ∈ t.rows, (PlainCell r.1 ∧ r.1 ≠ "") ∧ ∀ cell ∈ r.2, PlainCell cell) :
    ∀ cells ∈ csvRecords t, joinWith ',' cells ≠ [] := by
  intro cells hc
  rcases List.mem_cons.1 hc with h | h
  · subst h
    exact joinWith_ne_nil ',' _ _ (by decide)
  · rcases List.mem_map.1 h with ⟨r, hrmem, rfl⟩
    refine joinWith_ne_nil ',' _ _ ?_
    intro hdata
    exact (hrows r hrmem).1.2 (String.ext hdata)

/-- Re-parsing the exported delimited text recovers the header (time
column first, then every observation column) and every data row, provided
no rendered cell contains the separator or a newline and time cells are
nonempty — which holds for rendered timestamps and numbers. -/
theorem parseDelimited_csvString (t : Table)
    (hcols : ∀ c ∈ t.cols, PlainCell c.name)
    (hrows : ∀ r ∈ t.rows, (PlainCell r.1 ∧ r.1 ≠ "") ∧ ∀ cell ∈ r.2, PlainCell cell) :
    parseDelimited (csvString t) =
      ("time" :: t.cols.map (fun c => c.name)) :: t.rows.map (fun r => r.1 :: r.2) := by
  have hplain := plain_csvRecords t hcols hrows
  have hdata : (csvString t).data
      = (((csvRecords t).map (joinWith ',')).map (fun l => l ++ ['\n'])).flatten := by
    show ((csvRecords t).map (fun cells => joinWith ',' cells ++ ['\n'])).flatten = _
    rw [List.map_map]
    rfl
  have hnl : ∀ l ∈ (csvRecords t).map (joinWith ','), '\n' ∉ l := by
    intro l hl
    rcases List.mem_map.1 hl with ⟨cells, hcmem, rfl⟩
    exact not_mem_joinWith ',' '\n' (by decide) cells
      (fun cell hcell => (hplain cells hcmem cell hcell).2)
  have hne : ∀ l ∈ (csvRecords t).map (joinWith ','), l ≠ [] := by
    intro l hl
    rcases List.mem_map.1 hl with ⟨cells, hcmem, rfl⟩
    exact csvLines_ne_nil t hrows cells hcmem
  unfold parseDelimited
  rw [hdata, splitOnChar_newline_flatten '\n' _ hnl, filter_append_blank _ hne,
    List.map_map]
  have hmap : ∀ cells ∈ csvRecords t,
      ((fun line => (splitOnChar ',' line).map String.mk) ∘ joinWith ',') cells
        = cells.map String.mk := by
    intro cells hcmem
    show ((splitOnChar ',' (joinWith ',' cells)).map String.mk) = cells.map String.mk
    rw [splitOnChar_joinWith ',' cells (csvRecords_ne_nil t cells hcmem)
      (fun cell hcell => (hplain cells hcmem cell hcell).1)]
  rw [List.map_congr_left hmap]
  simp [csvRecords, headerCells, rowCells, List.map_map, Function.comp,
    string_mk_data]
  intro a b _
  simp [Function.comp_def, string_mk_data]

/-! ### Cache layer lemmas -/

theorem cachedCall_miss {α β : Type} [DecidableEq α] (ttl : Nat) (f : α → β)
    (now : Nat) (tbl : CacheTable α β) (a : α) (h : tbl a = none) :
    cachedCall ttl f now tbl a
      = (f a, fun x => if x = a then some ⟨f a, now⟩ else tbl x, true) := by
  unfold cachedCall
  rw [h]

theorem cachedCall_hit {α β : Type} [DecidableEq α] (ttl : Nat) (f : α → β)
    (now : Nat) (tbl : CacheTable α β) (a : α) (e : CacheEntry β)
    (h : tbl a = some e) (hfresh : now < e.storedAt + ttl) :
    cachedCall ttl f now tbl a = (e.value, tbl, false) := by
  unfold cachedCall
  rw [h]
  simp [hfresh]

theorem cachedCall_expired {α β : Type} [DecidableEq α] (ttl : Nat) (f : α → β)
    (now : Nat) (tbl : CacheTable α β) (a : α) (e : CacheEntry β)
    (h : tbl a = some e) (hexp : e.storedAt + ttl ≤ now) :
    cachedCall ttl f now tbl a
      = (f a, fun x => if x = a then some ⟨f a, now⟩ else tbl x, true) := by
  unfold cachedCall
  rw [h]
  simp [Nat.not_lt.2 hexp]

theorem cachedCall_memoSpec {α β : Type} [DecidableEq α] (ttl : Nat) :
    MemoSpec ttl (cachedCall (α := α) (β := β) ttl) := by
  intro f tbl a t1 t2
  refine ⟨?_, ?_, ?_, ?_⟩
  · rcases htbl : tbl a with _ | e0
    · have h1 := cachedCall_miss ttl f t1 tbl a htbl
      exact ⟨⟨f a, t1⟩, by rw [h1]; simp, by rw [h1]⟩
    · by_cases hfresh : t1 < e0.storedAt + ttl
      · have h1 := cachedCall_hit ttl f t1 tbl a e0 htbl hfresh
        exact ⟨e0, by rw [h1]; exact htbl, by rw [h1]⟩
      · have h1 := cachedCall_expired ttl f t1 tbl a e0 htbl (Nat.not_lt.1 hfresh)
        exact ⟨⟨f a, t1⟩, by rw [h1]; simp, by rw [h1]⟩
  · intro hnone
    have h1 := cachedCall_miss ttl f t1 tbl a hnone
    exact ⟨by rw [h1], by rw [h1], by rw [h1]; simp⟩
  · intro b hb
    rcases htbl : tbl a with _ | e0
    · have h1 := cachedCall_miss ttl f t1 tbl a htbl
      rw [h1]
      simp [hb]
    · by_cases hfresh : t1 < e0.storedAt + ttl
      · have h1 := cachedCall_hit ttl f t1 tbl a e0 htbl hfresh
        rw [h1]
      · have h1 := cachedCall_expired ttl f t1 tbl a e0 htbl (Nat.not_lt.1 hfresh)
        rw [h1]
        simp [hb]
  · intro e he
    constructor
    · intro hlt
      have h2 := cachedCall_hit ttl f t2 _ a e he hlt
      exact ⟨by rw [h2], by rw [h2], by rw [h2]⟩
    · intro hle
      have h2 := cachedCall_expired ttl f t2 _ a e he hle
      exact ⟨by rw [h2], by rw [h2], by rw [h2]; simp⟩

/-! ### Claims -/

/-- C1: each of the three fetch operations (geocoding, station lookup,
series fetch) is memoized by its full argument tuple with an independent
expiry — 1 hour for geocoding and station lookup, 30 minutes for series
data: a second identical call within the expiry window returns the stored
result without a second external invocation, and a call at or past expiry
invokes anew and overwrites the stored entry. -/
theorem claim_C1_cache_memoization :
    MemoSpec (60 * 60) geocode_city_country_memo ∧
    MemoSpec (60 * 60) nearby_stations_memo ∧
    MemoSpec (60 * 30) fetch_daily_memo ∧
    MemoSpec (60 * 30) fetch_hourly_memo :=
  ⟨cachedCall_memoSpec _, cachedCall_memoSpec _, cachedCall_memoSpec _,
    cachedCall_memoSpec _⟩

/-- Witness for C1 at concrete inputs: a first geocoding call at second 0
invokes the external operation; a repeat at second 1800 (within the 1-hour
window) does not; a repeat at second 3600 (at expiry) invokes again. -/
theorem claim_C1_cache_memoization_witness :
    (geocode_city_country_memo (fun _ => []) 0 (fun _ => none)
      ("Brisbane", "Australia", 10, "pt")).2.2 = true ∧
    (geocode_city_country_memo (fun _ => []) 1800
      ((geocode_city_country_memo (fun _ => []) 0 (fun _ => none)
        ("Brisbane", "Australia", 10, "pt")).2.1)
      ("Brisbane", "Australia", 10, "pt")).2.2 = false ∧
    (geocode_city_country_memo (fun _ => []) 3600
      ((geocode_city_country_memo (fun _ => []) 0 (fun _ => none)
        ("Brisbane", "Australia", 10, "pt")).2.1)
      ("Brisbane", "Australia", 10, "pt")).2.2 = true := by
  have H := claim_C1_cache_memoization.1 (fun _ => []) (fun _ => none)
    ("Brisbane", "Australia", 10, "pt") 0 1800
  have H2 := claim_C1_cache_memoization.1 (fun _ => []) (fun _ => none)
    ("Brisbane", "Australia", 10, "pt") 0 3600
  have he : (geocode_city_country_memo (fun _ => []) 0 (fun _ => none)
      ("Brisbane", "Australia", 10, "pt")).2.1 ("Brisbane", "Australia", 10, "pt")
      = some ⟨[], 0⟩ := (H.2.1 rfl).2.2
  refine ⟨(H.2.1 rfl).2.1, ?_, ?_⟩
  · exact ((H.2.2.2 ⟨[], 0⟩ he).1 (by decide)).2.1
  · exact ((H2.2.2.2 ⟨[], 0⟩ he).2 (by decide)).2.1

/-- C2: for input dates with start strictly greater than end, the flow
halts immediately with the validation error message and makes no external
calls at all (the trace is empty: no geocoding, no station lookup, no
series fetch). -/
theorem claim_C2_validation_halts (env : Env) (country city : String)
    (d1 d2 : PyDate) (gran : Granularity) (placeIdx stationIdx : Nat)
    (userCols : Option (List String)) (h : dateLt d2 d1 = true) :
    runFlow env country city (PeriodInput.range d1 d2) gran placeIdx
        stationIdx userCols
      = (Outcome.halted Halt.validationError, []) ∧
    Halt.validationError.isError = true := by
  constructor
  · simp [runFlow, normalizePeriod, h]
  · rfl

/-- Witness for C2 at a concrete pair of out-of-order dates. -/
theorem claim_C2_validation_halts_witness :
    runFlow ⟨Except.ok GeoField.absent, Except.ok [], Except.ok (),
        Except.ok ⟨[], []⟩, Except.ok ⟨[], []⟩⟩
      "Australia" "Brisbane" (PeriodInput.range ⟨2024, 2, 1⟩ ⟨2024, 1, 1⟩)
      Granularity.daily 0 0 none
      = (Outcome.halted Halt.validationError, []) :=
  (claim_C2_validation_halts _ _ _ _ _ _ _ _ _ (by decide)).1

/-- C10: when the date-range widget yields a single date, both endpoints
are set to that date, the validation comparison on the one-day range is
false (so the flow does not fail there), and the flow behaves exactly as
for the explicit one-day range. -/
theorem claim_C10_single_date (env : Env) (country city : String) (d : PyDate)
    (gran : Granularity) (placeIdx stationIdx : Nat)
    (userCols : Option (List String)) :
    normalizePeriod (PeriodInput.single d) = (d, d) ∧
    dateLt d d = false ∧
    runFlow env country city (PeriodInput.single d) gran placeIdx stationIdx userCols
      = runFlow env country city (PeriodInput.range d d) gran placeIdx stationIdx userCols := by
  refine ⟨rfl, ?_, rfl⟩
  simp [dateLt]

/-! ### Recovering the station id from its label -/

theorem takeWhile_append_of_all {α : Type} (p : α → Bool) :
    ∀ l1 l2 : List α, (∀ x ∈ l1, p x = true) →
      (l1 ++ l2).takeWhile p = l1 ++ l2.takeWhile p := by
  intro l1
  induction l1 with
  | nil => intro l2 _; rfl
  | cons a as ih =>
    intro l2 h
    have ha : p a = true := h a (by simp)
    simp only [List.cons_append, List.takeWhile_cons, ha, if_true]
    rw [ih l2 (fun x hx => h x (List.mem_cons_of_mem _ hx))]

theorem dropWhile_append_nil {α : Type} (p : α → Bool) :
    ∀ l1 l2 : List α, l1.dropWhile p = [] →
      (l1 ++ l2).dropWhile p = l2.dropWhile p := by
  intro l1
  induction l1 with
  | nil => intro l2 _; rfl
  | cons a as ih =>
    intro l2 h
    rw [List.dropWhile_cons] at h
    by_cases hp : p a = true
    · rw [List.cons_append, List.dropWhile_cons]
      simp only [hp, if_true] at h ⊢
      exact ih l2 h
    · simp [hp] at h

theorem dropWhile_append_cons {α : Type} (p : α → Bool) :
    ∀ l1 l2 : List α, l1.dropWhile p ≠ [] →
      (l1 ++ l2).dropWhile p = l1.dropWhile p ++ l2 := by
  intro l1
  induction l1 with
  | nil => intro l2 h; exact absurd rfl h
  | cons a as ih =>
    intro l2 h
    rw [List.dropWhile_cons] at h
    by_cases hp : p a = true
    · rw [List.cons_append, List.dropWhile_cons, List.dropWhile_cons]
      simp only [hp, if_true] at h ⊢
      exact ih l2 h
    · rw [List.cons_append, List.dropWhile_cons, List.dropWhile_cons]
      simp [hp]

theorem stripChars_append_space (l : List Char) :
    stripChars (l ++ [' ']) = stripChars l := by
  unfold stripChars
  by_cases hdw : l.dropWhile Char.isWhitespace = []
  · rw [dropWhile_append_nil _ l [' '] hdw, hdw]
    rfl
  · rw [dropWhile_append_cons _ l [' '] hdw, List.reverse_append]
    simp [List.dropWhile_cons]

theorem station_id_of_concat (idStr tail : String)
    (hdash : '—' ∉ idStr.data) (hstrip : pyStrip idStr = idStr) :
    station_id_of_label (idStr ++ " — " ++ tail) = idStr := by
  have hsep : (" — ").data = [' ', '—', ' '] := rfl
  have hdata : (idStr ++ " — " ++ tail).data
      = idStr.data ++ ' ' :: '—' :: (' ' :: tail.data) := by
    rw [String.data_append, String.data_append, hsep]
    simp
  have htake : (idStr.data ++ ' ' :: '—' :: (' ' :: tail.data)).takeWhile
      (fun ch => ch ≠ '—') = idStr.data ++ [' '] := by
    rw [takeWhile_append_of_all _ idStr.data _
      (fun x hx => by
        simp only [ne_eq, decide_eq_true_eq]
        intro heq
        subst heq
        exact hdash hx)]
    simp [List.takeWhile_cons]
  have hstripdata : stripChars idStr.data = idStr.data := by
    have h2 : (pyStrip idStr).data = idStr.data := by rw [hstrip]
    simpa [pyStrip] using h2
  unfold station_id_of_label beforeFirst
  rw [hdata, htake]
  show String.mk (stripChars (idStr.data ++ [' '])) = idStr
  rw [stripChars_append_space, hstripdata]

/-! ### Flow-stage trace lemmas -/

theorem fetchStage_trace (env : Env) (country city : String)
    (start_d end_d : PyDate) (gran : Granularity) (station_id : String)
    (userCols : Option (List String)) :
    (fetchStage env country city start_d end_d gran station_id userCols).2
      = [fcallOf gran station_id start_d end_d] := by
  unfold fetchStage
  cases gran with
  | daily =>
    cases env.dailyResp with
    | error u => rfl
    | ok df =>
      by_cases hdf : df.isEmptyDf = true <;> simp [hdf]
  | hourly =>
    cases env.hourlyResp with
    | error u => rfl
    | ok df =>
      by_cases hdf : df.isEmptyDf = true <;> simp [hdf]

theorem stationStage_trace (env : Env) (country city : String)
    (start_d end_d : PyDate) (gran : Granularity) (stationIdx : Nat)
    (userCols : Option (List String)) (s : Station) (ss : List Station) :
    (stationStage env country city start_d end_d gran stationIdx userCols (s :: ss)).2
      = ExtCall.inventory
          (station_id_of_label (((s :: ss).map stationLabel).getD stationIdx ""))
        :: (match env.inventoryResp with
            | Except.error _ => []
            | Except.ok _ =>
              [fcallOf gran
                (station_id_of_label (((s :: ss).map stationLabel).getD stationIdx ""))
                start_d end_d]) := by
  unfold stationStage
  cases hinv : env.inventoryResp with
  | error u => simp [hinv]
  | ok u => simp [hinv, fetchStage_trace]

theorem runFlow_reduce (country city : String) (d1 d2 : PyDate)
    (places : List Place) (stResp : Except Unit (List Station))
    (invResp : Except Unit Unit) (dres hres : Except Unit Table)
    (gran : Granularity) (placeIdx stationIdx : Nat)
    (userCols : Option (List String)) (p : Place)
    (hle : dateLt d2 d1 = false) (hne : places.isEmpty = false)
    (hsel : places[(places.map placeLabel).indexOf
      ((places.map placeLabel).getD placeIdx "")]? = some p) :
    runFlow ⟨Except.ok (GeoField.results places), stResp, invResp, dres, hres⟩
        country city (PeriodInput.range d1 d2) gran placeIdx stationIdx userCols
      = (match stResp with
        | Except.error _ =>
          (Outcome.halted Halt.stationsError,
            [ExtCall.geocode city country 10 "pt",
              ExtCall.stationsNearby p.latitude p.longitude (elev_or_zero p.elevation)])
        | Except.ok stations =>
          ((stationStage ⟨Except.ok (GeoField.results places), stResp, invResp, dres, hres⟩
              country city d1 d2 gran stationIdx userCols stations).1,
            ExtCall.geocode city country 10 "pt"
              :: ExtCall.stationsNearby p.latitude p.longitude (elev_or_zero p.elevation)
              :: (stationStage ⟨Except.ok (GeoField.results places), stResp, invResp, dres, hres⟩
                  country city d1 d2 gran stationIdx userCols stations).2)) := by
  unfold runFlow
  simp only [normalizePeriod, hle, Bool.false_eq_true, if_false, extractResults, hne, hsel]

theorem station_id_of_label_stationLabel (s : Station)
    (hdash : '—' ∉ s.id.data) (hstrip : pyStrip s.id = s.id) :
    station_id_of_label (stationLabel s) = s.id :=
  station_id_of_concat s.id _ hdash hstrip

/-- C3: with hourly granularity and dates D1 ≤ D2, the series request the
flow issues covers exactly the range from D1 at 00:00:00 through D2 at
23:59:00 (`datetime.combine` of the start date with `time(0, 0)` and of
the end date with `time(23, 59)`). -/
theorem claim_C3_hourly_range (country city : String) (d1 d2 : PyDate)
    (p : Place) (ps : List Place) (s : Station) (ss : List Station)
    (dres hres : Except Unit Table) (stationIdx : Nat)
    (userCols : Option (List String)) (hle : dateLt d2 d1 = false) :
    ∃ sid : String,
      ((runFlow ⟨Except.ok (GeoField.results (p :: ps)), Except.ok (s :: ss),
          Except.ok (), dres, hres⟩ country city (PeriodInput.range d1 d2)
          Granularity.hourly 0 stationIdx userCols).2)[3]?
        = some (ExtCall.hourlyFetch sid
            (datetimeCombine d1 ⟨0, 0, 0⟩) (datetimeCombine d2 ⟨23, 59, 0⟩)) := by
  refine ⟨station_id_of_label (((s :: ss).map stationLabel).getD stationIdx ""), ?_⟩
  have hsel : (p :: ps)[((p :: ps).map placeLabel).indexOf
      (((p :: ps).map placeLabel).getD 0 "")]? = some p := by
    simp [List.indexOf_cons_self]
  rw [runFlow_reduce country city d1 d2 (p :: ps) (Except.ok (s :: ss))
    (Except.ok ()) dres hres Granularity.hourly 0 stationIdx userCols p hle rfl hsel]
  simp [stationStage_trace, fcallOf, fetch_hourly_range]

/-- Witness for C3 at concrete inputs. -/
theorem claim_C3_hourly_range_witness :
    ∃ sid : String,
      ((runFlow ⟨Except.ok (GeoField.results
            [⟨"Brisbane", "Queensland", "", "Australia", -27, 153, none⟩]),
          Except.ok [⟨"94578", some "BRISBANE", 5000⟩], Except.ok (),
          Except.ok ⟨[], []⟩, Except.ok ⟨[], []⟩⟩
        "Australia" "Brisbane" (PeriodInput.range ⟨2024, 1, 1⟩ ⟨2024, 1, 31⟩)
        Granularity.hourly 0 0 none).2)[3]?
      = some (ExtCall.hourlyFetch sid
          (datetimeCombine ⟨2024, 1, 1⟩ ⟨0, 0, 0⟩)
          (datetimeCombine ⟨2024, 1, 31⟩ ⟨23, 59, 0⟩)) :=
  claim_C3_hourly_range _ _ _ _ _ _ _ _ _ _ _ _ (by decide)

/-- C5: with pairwise-distinct candidate labels, selecting geocoding
candidate `i` passes exactly that candidate's latitude and longitude to
the station lookup, and a missing (or null) elevation field is passed as
0. -/
theorem claim_C5_place_selection (country city : String) (d1 d2 : PyDate)
    (places : List Place) (i : Nat) (stResp : Except Unit (List Station))
    (invResp : Except Unit Unit) (dres hres : Except Unit Table)
    (gran : Granularity) (stationIdx : Nat) (userCols : Option (List String))
    (hle : dateLt d2 d1 = false) (hi : i < places.length)
    (hnd : (places.map placeLabel).Nodup) :
    ((runFlow ⟨Except.ok (GeoField.results places), stResp, invResp, dres, hres⟩
        country city (PeriodInput.range d1 d2) gran i stationIdx userCols).2)[1]?
      = some (ExtCall.stationsNearby places[i].latitude places[i].longitude
          (elev_or_zero places[i].elevation)) ∧
    (places[i].elevation = none → elev_or_zero places[i].elevation = 0) := by
  have hlen : i < (places.map placeLabel).length := by simpa using hi
  have hgetD : (places.map placeLabel).getD i "" = placeLabel places[i] := by
    rw [List.getD_eq_getElem _ _ hlen, List.getElem_map]
  have hidx : (places.map placeLabel).indexOf
      ((places.map placeLabel).getD i "") = i := by
    rw [hgetD]
    have h2 := List.indexOf_getElem hnd i hlen
    rwa [List.getElem_map] at h2
  have hsel : places[(places.map placeLabel).indexOf
      ((places.map placeLabel).getD i "")]? = some places[i] := by
    rw [hidx, List.getElem?_eq_getElem hi]
  have hne : places.isEmpty = false := by
    cases places with
    | nil => simp at hi
    | cons a as => rfl
  constructor
  · rw [runFlow_reduce country city d1 d2 places stResp invResp dres hres gran
      i stationIdx userCols places[i] hle hne hsel]
    cases stResp <;> simp
  · intro h
    simp [elev_or_zero, h]

/-- Witness for C5: selecting the second of two candidates passes its
coordinates, and its missing elevation is passed as 0. -/
theorem claim_C5_place_selection_witness :
    ((runFlow ⟨Except.ok (GeoField.results
          [⟨"A", "a1", "a2", "C", 1, 2, some 3⟩, ⟨"B", "b1", "b2", "C", 4, 5, none⟩]),
        Except.ok [], Except.ok (), Except.ok ⟨[], []⟩, Except.ok ⟨[], []⟩⟩
      "C" "B" (PeriodInput.range ⟨2024, 1, 1⟩ ⟨2024, 1, 2⟩)
      Granularity.daily 1 0 none).2)[1]?
      = some (ExtCall.stationsNearby 4 5 (elev_or_zero none)) ∧
    elev_or_zero none = 0 := by
  have H := claim_C5_place_selection "C" "B" ⟨2024, 1, 1⟩ ⟨2024, 1, 2⟩
    [⟨"A", "a1", "a2", "C", 1, 2, some 3⟩, ⟨"B", "b1", "b2", "C", 4, 5, none⟩] 1
    (Except.ok []) (Except.ok ()) (Except.ok ⟨[], []⟩) (Except.ok ⟨[], []⟩)
    Granularity.daily 0 none (by decide) (by decide) (by decide)
  exact ⟨H.1, H.2 rfl⟩

/-- C8: an empty station list halts the flow with the visible (warning,
not error) "no station" condition; otherwise the selectbox over station
labels — whose default position is 0, i.e. the first, nearest entry — is
the station whose id the flow uses, and any position `i` can be chosen by
the explicit secondary selection step. -/
theorem claim_C8_station_selection (country city : String) (d1 d2 : PyDate)
    (p : Place) (ps : List Place) (gran : Granularity)
    (invResp : Except Unit Unit) (dres hres : Except Unit Table)
    (userCols : Option (List String)) (stations : List Station) (i : Nat)
    (hle : dateLt d2 d1 = false) :
    (stations = [] →
      ∀ stationIdx : Nat,
        runFlow ⟨Except.ok (GeoField.results (p :: ps)), Except.ok stations,
            invResp, dres, hres⟩ country city (PeriodInput.range d1 d2) gran 0
            stationIdx userCols
          = (Outcome.halted Halt.noStation,
              [ExtCall.geocode city country 10 "pt",
                ExtCall.stationsNearby p.latitude p.longitude
                  (elev_or_zero p.elevation)]) ∧
        Halt.noStation.isError = false) ∧
    (∀ s : Station, ∀ ss : List Station, stations = s :: ss →
      '—' ∉ s.id.data → pyStrip s.id = s.id →
      ((runFlow ⟨Except.ok (GeoField.results (p :: ps)), Except.ok stations,
          invResp, dres, hres⟩ country city (PeriodInput.range d1 d2) gran 0
          0 userCols).2)[2]?
        = some (ExtCall.inventory s.id)) ∧
    (∀ hi : i < stations.length, '—' ∉ stations[i].id.data →
      pyStrip stations[i].id = stations[i].id →
      ((runFlow ⟨Except.ok (GeoField.results (p :: ps)), Except.ok stations,
          invResp, dres, hres⟩ country city (PeriodInput.range d1 d2) gran 0
          i userCols).2)[2]?
        = some (ExtCall.inventory stations[i].id)) := by
  have hsel : (p :: ps)[((p :: ps).map placeLabel).indexOf
      (((p :: ps).map placeLabel).getD 0 "")]? = some p := by
    simp [List.indexOf_cons_self]
  have hmain : ∀ idx : Nat, ∀ hilen : idx < stations.length,
      '—' ∉ stations[idx].id.data → pyStrip stations[idx].id = stations[idx].id →
      ((runFlow ⟨Except.ok (GeoField.results (p :: ps)), Except.ok stations,
          invResp, dres, hres⟩ country city (PeriodInput.range d1 d2) gran 0
          idx userCols).2)[2]?
        = some (ExtCall.inventory stations[idx].id) := by
    intro idx hilen hdash hstrip
    cases stations with
    | nil => simp at hilen
    | cons s0 ss0 =>
      rw [runFlow_reduce country city d1 d2 (p :: ps) (Except.ok (s0 :: ss0))
        invResp dres hres gran 0 idx userCols p hle rfl hsel]
      have hglen : idx < ((s0 :: ss0).map stationLabel).length := by simpa using hilen
      have hgetD : ((s0 :: ss0).map stationLabel).getD idx ""
          = stationLabel (s0 :: ss0)[idx] := by
        rw [List.getD_eq_getElem _ _ hglen, List.getElem_map]
      simp only [stationStage_trace]
      rw [hgetD, station_id_of_label_stationLabel _ hdash hstrip]
      simp
  refine ⟨?_, ?_, fun hi => hmain i hi⟩
  · rintro rfl stationIdx
    rw [runFlow_reduce country city d1 d2 (p :: ps) (Except.ok [])
      invResp dres hres gran 0 stationIdx userCols p hle rfl hsel]
    exact ⟨rfl, rfl⟩
  · rintro s ss rfl hdash hstrip
    exact hmain 0 (by simp) hdash hstrip

/-- Witness for C8: a singleton station list yields its entry as the
default, and the empty list halts with the "no station" warning. -/
theorem claim_C8_station_selection_witness :
    ((runFlow ⟨Except.ok (GeoField.results [⟨"B", "b1", "b2", "C", 4, 5, none⟩]),
        Except.ok [⟨"94578", some "BRISBANE", 5000⟩], Except.ok (),
        Except.ok ⟨[], []⟩, Except.ok ⟨[], []⟩⟩
      "C" "B" (PeriodInput.range ⟨2024, 1, 1⟩ ⟨2024, 1, 2⟩)
      Granularity.daily 0 0 none).2)[2]?
      = some (ExtCall.inventory "94578") := by
  have H := claim_C8_station_selection "C" "B" ⟨2024, 1, 1⟩ ⟨2024, 1, 2⟩
    ⟨"B", "b1", "b2", "C", 4, 5, none⟩ [] Granularity.daily (Except.ok ())
    (Except.ok ⟨[], []⟩) (Except.ok ⟨[], []⟩) none
    [⟨"94578", some "BRISBANE", 5000⟩] 0 (by decide)
  exact H.2.1 ⟨"94578", some "BRISBANE", 5000⟩ [] rfl (by decide) (by decide)

/-- C6: an empty geocoding result list — including a response body whose
results field is absent or carries null — halts the flow with the "no
location found" warning, which is distinct from an error, and no station
lookup appears in the trace; a raised geocoding exception (network
failure or non-success HTTP status) instead halts the flow with an
error. -/
theorem claim_C6_geocode_outcomes (country city : String) (d1 d2 : PyDate)
    (gran : Granularity) (placeIdx stationIdx : Nat)
    (userCols : Option (List String)) (stResp : Except Unit (List Station))
    (invResp : Except Unit Unit) (dres hres : Except Unit Table)
    (hle : dateLt d2 d1 = false) :
    (∀ gf : GeoField, extractResults gf = [] →
      runFlow ⟨Except.ok gf, stResp, invResp, dres, hres⟩ country city
          (PeriodInput.range d1 d2) gran placeIdx stationIdx userCols
        = (Outcome.halted Halt.noLocation,
            [ExtCall.geocode city country 10 "pt"]) ∧
      Halt.noLocation.isError = false) ∧
    extractResults GeoField.absent = [] ∧
    extractResults GeoField.null = [] ∧
    (∀ u : Unit,
      runFlow ⟨Except.error u, stResp, invResp, dres, hres⟩ country city
          (PeriodInput.range d1 d2) gran placeIdx stationIdx userCols
        = (Outcome.halted Halt.geocodeError,
            [ExtCall.geocode city country 10 "pt"]) ∧
      Halt.geocodeError.isError = true) ∧
    (∀ lat lon elev : ℚ,
      ExtCall.stationsNearby lat lon elev
        ∉ [ExtCall.geocode city country 10 "pt"]) := by
  refine ⟨?_, rfl, rfl, ?_, ?_⟩
  · intro gf hempty
    refine ⟨?_, rfl⟩
    unfold runFlow
    simp [normalizePeriod, hle, hempty]
  · intro u
    refine ⟨?_, rfl⟩
    unfold runFlow
    simp [normalizePeriod, hle]
  · intro lat lon elev
    simp

/-- Witness for C6: a nonsense location with an empty result list halts
with the "no location found" warning after only the geocoding call. -/
theorem claim_C6_geocode_outcomes_witness :
    runFlow ⟨Except.ok (GeoField.results []), Except.ok [], Except.ok (),
        Except.ok ⟨[], []⟩, Except.ok ⟨[], []⟩⟩
      "Atlantis" "Nowhere" (PeriodInput.range ⟨2024, 1, 1⟩ ⟨2024, 1, 2⟩)
      Granularity.daily 0 0 none
      = (Outcome.halted Halt.noLocation,
          [ExtCall.geocode "Nowhere" "Atlantis" 10 "pt"]) :=
  ((claim_C6_geocode_outcomes "Atlantis" "Nowhere" ⟨2024, 1, 1⟩ ⟨2024, 1, 2⟩
    Granularity.daily 0 0 none (Except.ok []) (Except.ok ())
    (Except.ok ⟨[], []⟩) (Except.ok ⟨[], []⟩) (by decide)).1
      (GeoField.results []) rfl).1

theorem bar_condition_iff (l : List String) :
    (!l.isEmpty && l.contains "prcp") = true ↔ "prcp" ∈ l := by
  cases l with
  | nil => simp
  | cons a as => simp

/-- C9: for a non-empty fetched table the preview is the first 50 rows of
the table (exactly 50 whenever the table has at least 50 rows), the
default plotted variables are the canonical list filtered to the numeric
columns — whose membership is exactly the intersection of the two — with
the first two numeric columns as fallback when that filter is empty, and
the precipitation bar chart is shown precisely when `prcp` is among the
selected columns. -/
theorem claim_C9_rendering (country city : String) (d1 d2 : PyDate)
    (p : Place) (ps : List Place) (s : Station) (ss : List Station)
    (gran : Granularity) (userCols : Option (List String)) (df : Table)
    (hle : dateLt d2 d1 = false) (hdf : df.isEmptyDf = false) :
    ∃ rend : Rendered,
      (runFlow ⟨Except.ok (GeoField.results (p :: ps)), Except.ok (s :: ss),
          Except.ok (), Except.ok df, Except.ok df⟩ country city
          (PeriodInput.range d1 d2) gran 0 0 userCols).1
        = Outcome.rendered rend ∧
      rend.preview = df.rows.take 50 ∧
      (50 ≤ df.rows.length → rend.preview.length = 50) ∧
      rend.numericCols = numeric_cols df ∧
      rend.defaultCols = (if (default_cols (numeric_cols df)).isEmpty
        then (numeric_cols df).take 2 else default_cols (numeric_cols df)) ∧
      (∀ cn : String, cn ∈ default_cols (numeric_cols df) ↔
        (cn ∈ canonicalVars ∧ cn ∈ numeric_cols df)) ∧
      rend.selectedCols = userCols.getD rend.defaultCols ∧
      (rend.prcpBarShown = true ↔ "prcp" ∈ rend.selectedCols) := by
  have hsel : (p :: ps)[((p :: ps).map placeLabel).indexOf
      (((p :: ps).map placeLabel).getD 0 "")]? = some p := by
    simp [List.indexOf_cons_self]
  refine ⟨renderPage country city d1 d2
    (station_id_of_label (((s :: ss).map stationLabel).getD 0 "")) df userCols,
    ?_, rfl, ?_, rfl, rfl, ?_, rfl, ?_⟩
  · rw [runFlow_reduce country city d1 d2 (p :: ps) (Except.ok (s :: ss))
      (Except.ok ()) (Except.ok df) (Except.ok df) gran 0 0 userCols p hle rfl hsel]
    cases gran <;> simp [stationStage, fetchStage, fcallOf, hdf]
  · intro hlen
    show (df.rows.take 50).length = 50
    rw [List.length_take]
    omega
  · intro cn
    simp [default_cols, List.mem_filter]
  · exact bar_condition_iff _

/-- Witness for C9 at a concrete one-row, one-column table. -/
theorem claim_C9_rendering_witness :
    ∃ rend : Rendered,
      (runFlow ⟨Except.ok (GeoField.results [⟨"B", "b1", "b2", "C", 4, 5, none⟩]),
          Except.ok [⟨"94578", some "BRISBANE", 5000⟩], Except.ok (),
          Except.ok ⟨[⟨"temp", true⟩], [("t", ["1"])]⟩,
          Except.ok ⟨[⟨"temp", true⟩], [("t", ["1"])]⟩⟩
        "C" "B" (PeriodInput.range ⟨2024, 1, 1⟩ ⟨2024, 1, 2⟩)
        Granularity.daily 0 0 none).1
        = Outcome.rendered rend ∧
      rend.preview = (Table.mk [⟨"temp", true⟩] [("t", ["1"])]).rows.take 50 ∧
      (50 ≤ (Table.mk [⟨"temp", true⟩] [("t", ["1"])]).rows.length →
        rend.preview.length = 50) ∧
      rend.numericCols = numeric_cols (Table.mk [⟨"temp", true⟩] [("t", ["1"])]) ∧
      rend.defaultCols
        = (if (default_cols (numeric_cols (Table.mk [⟨"temp", true⟩] [("t", ["1"])]))).isEmpty
          then (numeric_cols (Table.mk [⟨"temp", true⟩] [("t", ["1"])])).take 2
          else default_cols (numeric_cols (Table.mk [⟨"temp", true⟩] [("t", ["1"])]))) ∧
      (∀ cn : String,
        cn ∈ default_cols (numeric_cols (Table.mk [⟨"temp", true⟩] [("t", ["1"])])) ↔
        (cn ∈ canonicalVars ∧
          cn ∈ numeric_cols (Table.mk [⟨"temp", true⟩] [("t", ["1"])]))) ∧
      rend.selectedCols = (none : Option (List String)).getD rend.defaultCols ∧
      (rend.prcpBarShown = true ↔ "prcp" ∈ rend.selectedCols) :=
  claim_C9_rendering "C" "B" ⟨2024, 1, 1⟩ ⟨2024, 1, 2⟩
    ⟨"B", "b1", "b2", "C", 4, 5, none⟩ [] ⟨"94578", some "BRISBANE", 5000⟩ []
    Granularity.daily none ⟨[⟨"temp", true⟩], [("t", ["1"])]⟩
    (by decide) (by decide)

/-- C4: serializing a fetched table with the export function and
re-parsing the resulting delimited text yields the same row count and the
same sequence of time index values as the in-memory table, provided the
rendered cells contain no separator or newline and the time cells are
nonempty — which holds for rendered timestamps and numbers. -/
theorem claim_C4_roundtrip (t : Table)
    (hcols : ∀ c ∈ t.cols, PlainCell c.name)
    (hrows : ∀ r ∈ t.rows, (PlainCell r.1 ∧ r.1 ≠ "") ∧ ∀ cell ∈ r.2, PlainCell cell) :
    df_to_csv_bytes t = (csvString t).toUTF8 ∧
    (parseDelimited (csvString t)).tail.length = t.rows.length ∧
    (parseDelimited (csvString t)).tail.map (fun q => q.head?)
      = t.rows.map (fun r => some r.1) := by
  refine ⟨rfl, ?_, ?_⟩
  · rw [parseDelimited_csvString t hcols hrows]
    simp
  · rw [parseDelimited_csvString t hcols hrows]
    simp [List.map_map]

/-- Witness for C4 at a concrete one-row table. -/
theorem claim_C4_roundtrip_witness :
    df_to_csv_bytes ⟨[⟨"temp", true⟩], [("2024-01-01", ["1.0"])]⟩
      = (csvString ⟨[⟨"temp", true⟩], [("2024-01-01", ["1.0"])]⟩).toUTF8 ∧
    (parseDelimited (csvString ⟨[⟨"temp", true⟩], [("2024-01-01", ["1.0"])]⟩)).tail.length
      = (Table.mk [⟨"temp", true⟩] [("2024-01-01", ["1.0"])]).rows.length ∧
    (parseDelimited (csvString ⟨[⟨"temp", true⟩], [("2024-01-01", ["1.0"])]⟩)).tail.map
        (fun q => q.head?)
      = (Table.mk [⟨"temp", true⟩] [("2024-01-01", ["1.0"])]).rows.map
          (fun r => some r.1) :=
  claim_C4_roundtrip ⟨[⟨"temp", true⟩], [("2024-01-01", ["1.0"])]⟩
    (by decide) (by decide)

/-- C7: the exported file is the UTF-8 encoding of the delimited text; the
re-parsed text has the time index as the first column (header `time`
first, every data record starting with its time value) followed by all
observation fields; and the file name is the interpolation of the
country, city, station and date-range tokens with every space replaced by
an underscore — in particular it contains no space. -/
theorem claim_C7_export_format (t : Table) (country city station_id : String)
    (d1 d2 : PyDate)
    (hcols : ∀ c ∈ t.cols, PlainCell c.name)
    (hrows : ∀ r ∈ t.rows, (PlainCell r.1 ∧ r.1 ≠ "") ∧ ∀ cell ∈ r.2, PlainCell cell) :
    df_to_csv_bytes t = (csvString t).toUTF8 ∧
    (parseDelimited (csvString t)).head?
      = some ("time" :: t.cols.map (fun c => c.name)) ∧
    (parseDelimited (csvString t)).tail = t.rows.map (fun r => r.1 :: r.2) ∧
    file_name country city station_id d1 d2
      = pyReplaceSpace ("meteostat_" ++ country ++ "_" ++ city ++ "_" ++ station_id
        ++ "_" ++ d1.iso ++ "_" ++ d2.iso ++ ".csv") ∧
    ' ' ∉ (file_name country city station_id d1 d2).data := by
  refine ⟨rfl, ?_, ?_, rfl, ?_⟩
  · rw [parseDelimited_csvString t hcols hrows]
    rfl
  · rw [parseDelimited_csvString t hcols hrows]
    rfl
  · unfold file_name pyReplaceSpace
    intro hmem
    rcases List.mem_map.1 hmem with ⟨ch, _, heq⟩
    by_cases hch : ch = ' '
    · rw [if_pos hch] at heq
      exact absurd heq (by decide)
    · rw [if_neg hch] at heq
      exact hch heq

/-- Witness for C7 with a country name containing a space. -/
theorem claim_C7_export_format_witness :
    df_to_csv_bytes ⟨[⟨"prcp", true⟩], [("2024-01-01", ["0.5"])]⟩
      = (csvString ⟨[⟨"prcp", true⟩], [("2024-01-01", ["0.5"])]⟩).toUTF8 ∧
    (parseDelimited (csvString ⟨[⟨"prcp", true⟩], [("2024-01-01", ["0.5"])]⟩)).head?
      = some ("time" :: (Table.mk [⟨"prcp", true⟩] [("2024-01-01", ["0.5"])]).cols.map
          (fun c => c.name)) ∧
    (parseDelimited (csvString ⟨[⟨"prcp", true⟩], [("2024-01-01", ["0.5"])]⟩)).tail
      = (Table.mk [⟨"prcp", true⟩] [("2024-01-01", ["0.5"])]).rows.map
          (fun r => r.1 :: r.2) ∧
    file_name "New Zealand" "Wellington" "93436" ⟨2024, 1, 1⟩ ⟨2024, 1, 31⟩
      = pyReplaceSpace ("meteostat_" ++ "New Zealand" ++ "_" ++ "Wellington"
        ++ "_" ++ "93436" ++ "_" ++ PyDate.iso ⟨2024, 1, 1⟩ ++ "_"
        ++ PyDate.iso ⟨2024, 1, 31⟩ ++ ".csv") ∧
    ' ' ∉ (file_name "New Zealand" "Wellington" "93436"
      ⟨2024, 1, 1⟩ ⟨2024, 1, 31⟩).data :=
  claim_C7_export_format ⟨[⟨"prcp", true⟩], [("2024-01-01", ["0.5"])]⟩
    "New Zealand" "Wellington" "93436" ⟨2024, 1, 1⟩ ⟨2024, 1, 31⟩
    (by decide) (by decide)

end MeteoStats
